import Mathlib

/-!
Verification model of `src/screencastPanel.ts` (ScreencastPanel: a singleton
webview-panel controller).  The TypeScript class is embedded shallowly:

* Pure helpers (`reportError`'s JSON routing, `getHtmlForWebview`'s URI
  resolution, `postToWebview`'s envelope) become Lean functions.
* The stateful singleton lifecycle becomes explicit state passing over a
  `World` record holding the static `instance` slot, every controller object
  ever constructed (keyed by a numeric handle), and a chronological trace of
  observable side effects on the collaborators (panel host, socket bridge,
  error dialog, telemetry, webview).
* `JSON.parse` is embedded as a fueled recursive-descent parser `Json.parse`.
  JSON numbers are represented exactly as written, as a decimal significand
  and a power-of-ten exponent.  JavaScript additionally rounds every number to
  an IEEE double; that rounding (and the double range: underflow of nonzero
  decimals below the smallest positive double to `0`, overflow to infinity)
  is outside the model — no claim inspects a number except through
  truthiness, where the model uses significand-is-zero.  Fuel is the input
  length plus one, which bounds the nesting depth: every nesting level
  consumes at least one input character before the recursive call.
-/

/-- A parsed JSON value, as produced by `JSON.parse`.  A number written in the
input denotes `significand * 10 ^ exp10`, kept exactly as written (see the
file comment on JavaScript double rounding). -/
inductive Json where
  | null : Json
  | bool (b : Bool) : Json
  | num (significand : Int) (exp10 : Int) : Json
  | str (s : String) : Json
  | arr (elems : List Json) : Json
  | obj (fields : List (String × Json)) : Json

/-- JavaScript property access `j[k]` on a parsed value.  `JSON.parse` can
yield `null`, and property access on `null` throws a TypeError — modelled as
`Except.error ()`.  On any other non-object (primitives are boxed) the access
yields `undefined`, modelled as `Except.ok none`.  Duplicate keys follow
`JSON.parse`: the last occurrence wins. -/
def Json.getField : Json → String → Except Unit (Option Json)
  | Json.null, _ => Except.error ()
  | Json.obj fields, k =>
      Except.ok (fields.foldl (fun acc p => if p.1 = k then some p.2 else acc) none)
  | _, _ => Except.ok none

/-- JavaScript truthiness of a parsed JSON value: `null`, `false`, zero
(every number with significand `0`, including `-0`) and the empty string are
falsy; arrays and objects are always truthy.  (A nonzero decimal that a
JavaScript double would round to `0` is outside the model; see the file
comment.) -/
def Json.truthy : Json → Bool
  | Json.null => false
  | Json.bool b => b
  | Json.num m _ => decide (m ≠ 0)
  | Json.str s => decide (s ≠ "")
  | Json.arr _ => true
  | Json.obj _ => true

/-- JavaScript truthiness of a possibly-`undefined` value. -/
def truthyOpt : Option Json → Bool
  | none => false
  | some j => j.truthy

/-- The double-quote character. -/
def quoteChar : Char := Char.ofNat 34

/-- The backslash character. -/
def backslashChar : Char := Char.ofNat 92

/-- The opening-brace character. -/
def lbraceChar : Char := Char.ofNat 123

/-- The closing-brace character. -/
def rbraceChar : Char := Char.ofNat 125

/-- JSON whitespace. -/
def isJsonWs (c : Char) : Bool :=
  c = ' ' || c = Char.ofNat 10 || c = Char.ofNat 9 || c = Char.ofNat 13

/-- Drop leading JSON whitespace. -/
def skipWs : List Char → List Char
  | [] => []
  | c :: cs => if isJsonWs c then skipWs cs else c :: cs

/-- Single-character JSON string escapes. -/
def escapeChar (c : Char) : Option Char :=
  if c = quoteChar then some quoteChar
  else if c = backslashChar then some backslashChar
  else if c = '/' then some '/'
  else if c = 'n' then some (Char.ofNat 10)
  else if c = 't' then some (Char.ofNat 9)
  else if c = 'r' then some (Char.ofNat 13)
  else if c = 'b' then some (Char.ofNat 8)
  else if c = 'f' then some (Char.ofNat 12)
  else none

/-- Value of a hexadecimal digit. -/
def hexVal (c : Char) : Option Nat :=
  if c.isDigit then some (c.toNat - 48)
  else if 'a' ≤ c ∧ c ≤ 'f' then some (c.toNat - 87)
  else if 'A' ≤ c ∧ c ≤ 'F' then some (c.toNat - 55)
  else none

/-- Parse the body of a JSON string after the opening quote; returns the
string and the remaining input.  Raw control characters (below U+0020) are
rejected, as in JSON.  A `\u` escape becomes the single character with that
code (surrogate pairs are not recombined, and a lone surrogate code maps to
the null character — observable only in string contents no claim inspects). -/
def parseStringBody : Nat → List Char → Option (String × List Char)
  | 0, _ => none
  | Nat.succ fuel, cs =>
    match cs with
    | [] => none
    | c :: rest =>
      if c = quoteChar then some ("", rest)
      else if c = backslashChar then
        match rest with
        | [] => none
        | e :: rest2 =>
          if e = 'u' then
            match rest2 with
            | h1 :: h2 :: h3 :: h4 :: rest3 =>
              match hexVal h1, hexVal h2, hexVal h3, hexVal h4 with
              | some a, some b, some c2, some d =>
                match parseStringBody fuel rest3 with
                | some (s, rest4) =>
                    some (String.mk (Char.ofNat (a * 4096 + b * 256 + c2 * 16 + d) :: s.toList), rest4)
                | none => none
              | _, _, _, _ => none
            | _ => none
          else
            match escapeChar e with
            | some ec =>
              match parseStringBody fuel rest2 with
              | some (s, rest3) => some (String.mk (ec :: s.toList), rest3)
              | none => none
            | none => none
      else if c.toNat < 32 then none
      else
        match parseStringBody fuel rest with
        | some (s, rest2) => some (String.mk (c :: s.toList), rest2)
        | none => none

/-- Parse a run of decimal digits into a natural number accumulator. -/
def parseDigits : List Char → Nat → Nat → Nat × Nat × List Char
  | [], acc, count => (acc, count, [])
  | c :: cs, acc, count =>
    if c.isDigit then parseDigits cs (acc * 10 + (c.toNat - 48)) (count + 1)
    else (acc, count, c :: cs)

/-- Does the input start with a decimal digit? -/
def startsWithDigit : List Char → Bool
  | d :: _ => d.isDigit
  | [] => false

/-- Parse the optional exponent of a JSON number; `m`/`e` are the significand
and power-of-ten exponent accumulated so far. -/
def parseExponent (m : Int) (e : Int) (cs : List Char) : Option (Int × Int × List Char) :=
  match cs with
  | c :: rest =>
    if c = 'e' ∨ c = 'E' then
      match rest with
      | s :: rest2 =>
        if s = '+' then
          match parseDigits rest2 0 0 with
          | (ex, count, rest3) =>
            if count = 0 then none else some (m, e + Int.ofNat ex, rest3)
        else if s = '-' then
          match parseDigits rest2 0 0 with
          | (ex, count, rest3) =>
            if count = 0 then none else some (m, e - Int.ofNat ex, rest3)
        else
          match parseDigits (s :: rest2) 0 0 with
          | (ex, count, rest3) =>
            if count = 0 then none else some (m, e + Int.ofNat ex, rest3)
      | [] => none
    else some (m, e, cs)
  | [] => some (m, e, [])

/-- Parse the unsigned part of a JSON number: an integer part that is a
single `0` or starts with a nonzero digit (JSON rejects leading zeros), an
optional fraction with at least one digit, and an optional exponent. -/
def parseNumAfterSign (cs : List Char) : Option (Int × Int × List Char) :=
  match cs with
  | c :: rest =>
    if ¬ c.isDigit then none
    else if c = '0' ∧ startsWithDigit rest then none
    else
      match parseDigits (c :: rest) 0 0 with
      | (ip, _, rest2) =>
        match rest2 with
        | '.' :: rest3 =>
          match parseDigits rest3 0 0 with
          | (fp, fcount, rest4) =>
            if fcount = 0 then none
            else parseExponent (Int.ofNat (ip * 10 ^ fcount + fp)) (-(Int.ofNat fcount)) rest4
        | _ => parseExponent (Int.ofNat ip) 0 rest2
  | [] => none

/-- Parse a JSON number: optional minus, integer part, optional fraction and
exponent, represented exactly as a decimal significand and exponent. -/
def parseNumber (cs : List Char) : Option (Json × List Char) :=
  match cs with
  | c :: rest =>
    if c = '-' then
      match parseNumAfterSign rest with
      | some (m, e, rest2) => some (Json.num (-m) e, rest2)
      | none => none
    else
      match parseNumAfterSign (c :: rest) with
      | some (m, e, rest2) => some (Json.num m e, rest2)
      | none => none
  | [] => none

mutual

/-- Parse one JSON value; fuel bounds the recursion depth. -/
def parseValue : Nat → List Char → Option (Json × List Char)
  | 0, _ => none
  | Nat.succ fuel, cs =>
    match skipWs cs with
    | 'n' :: 'u' :: 'l' :: 'l' :: rest => some (Json.null, rest)
    | 't' :: 'r' :: 'u' :: 'e' :: rest => some (Json.bool true, rest)
    | 'f' :: 'a' :: 'l' :: 's' :: 'e' :: rest => some (Json.bool false, rest)
    | c :: rest =>
      if c = lbraceChar then parseObjectRest fuel rest
      else if c = '[' then parseArrayRest fuel rest
      else if c = quoteChar then
        match parseStringBody (rest.length + 1) rest with
        | some (s, rest2) => some (Json.str s, rest2)
        | none => none
      else parseNumber (c :: rest)
    | [] => none

/-- Parse the remainder of a JSON object after the opening brace. -/
def parseObjectRest : Nat → List Char → Option (Json × List Char)
  | 0, _ => none
  | Nat.succ fuel, cs =>
    match skipWs cs with
    | [] => none
    | c :: rest =>
      if c = rbraceChar then some (Json.obj [], rest)
      else parseMembers fuel (c :: rest) []

/-- Parse the members of a JSON object (at least one `key : value` pair). -/
def parseMembers : Nat → List Char → List (String × Json) → Option (Json × List Char)
  | 0, _, _ => none
  | Nat.succ fuel, cs, acc =>
    match skipWs cs with
    | [] => none
    | c :: rest =>
      if c = quoteChar then
        match parseStringBody (rest.length + 1) rest with
        | some (key, rest2) =>
          match skipWs rest2 with
          | ':' :: rest3 =>
            match parseValue fuel rest3 with
            | some (v, rest4) =>
              match skipWs rest4 with
              | d :: rest5 =>
                if d = ',' then parseMembers fuel rest5 (acc ++ [(key, v)])
                else if d = rbraceChar then some (Json.obj (acc ++ [(key, v)]), rest5)
                else none
              | [] => none
            | none => none
          | _ => none
        | none => none
      else none

/-- Parse the remainder of a JSON array after the opening bracket. -/
def parseArrayRest : Nat → List Char → Option (Json × List Char)
  | 0, _ => none
  | Nat.succ fuel, cs =>
    match skipWs cs with
    | [] => none
    | c :: rest =>
      if c = ']' then some (Json.arr [], rest)
      else parseElems fuel (c :: rest) []

/-- Parse the elements of a JSON array (at least one value). -/
def parseElems : Nat → List Char → List Json → Option (Json × List Char)
  | 0, _, _ => none
  | Nat.succ fuel, cs, acc =>
    match parseValue fuel cs with
    | some (v, rest) =>
      match skipWs rest with
      | d :: rest2 =>
        if d = ',' then parseElems fuel rest2 (acc ++ [v])
        else if d = ']' then some (Json.arr (acc ++ [v]), rest2)
        else none
      | [] => none
    | none => none

end

/-- Embedding of `JSON.parse`: `none` models the thrown `SyntaxError`. -/
def Json.parse (s : String) : Option Json :=
  let cs := s.toList
  match parseValue (cs.length + 1) cs with
  | some (j, rest) => if skipWs rest = [] then some j else none
  | none => none

/-! ## The host and collaborator data model -/

/-- A host URI (modelled by its path string, which is all this file inspects). -/
structure Uri where
  path : String

/-- Embedding of `vscode.Uri.file`. -/
def Uri.file (p : String) : Uri := ⟨p⟩

/-- Embedding of `vscode.Uri.joinPath`: appends slash-separated segments. -/
def Uri.joinPath (u : Uri) (segs : List String) : Uri :=
  ⟨segs.foldl (fun acc s => acc ++ "/" ++ s) u.path⟩

/-- Embedding of Node's `path.join` on three segments. -/
def pathJoin3 (a b c : String) : String := a ++ "/" ++ b ++ "/" ++ c

/-- A URI converted for use inside a webview (`webview.asWebviewUri`). -/
structure WebviewUri where
  source : Uri

/-- Embedding of `webview.asWebviewUri`. -/
def Webview.asWebviewUri (u : Uri) : WebviewUri := ⟨u⟩

/-- Modelled from the spec: the socket lifecycle events of the wire envelope
are a fixed enumeration (`WebSocketEvent` lives in `src/common/webviewEvents`,
which is outside the sources provided). -/
inductive WebSocketEvent where
  | open_ : WebSocketEvent
  | close_ : WebSocketEvent
  | error_ : WebSocketEvent
  | message_ : WebSocketEvent

/-- Modelled from the spec: the view renderer's output is an HTML string fully
determined by the CSP source and the three resource URIs handed to it
(`ScreencastView` lives in `src/screencast/view`, outside the sources
provided). -/
inductive Html where
  | render (cspSource : String) (cssPath : WebviewUri) (codiconsUri : WebviewUri)
      (inspectorUri : WebviewUri) : Html

/-- The view-renderer collaborator: constructed with the CSP source and three
resource URIs, exactly as `new ScreencastView(cspSource, cssPath, codiconsUri,
inspectorUri)`. -/
structure ScreencastView where
  cspSource : String
  cssPath : WebviewUri
  codiconsUri : WebviewUri
  inspectorUri : WebviewUri

/-- Modelled from the spec: `ScreencastView.render` produces an HTML string
given the CSP source and the three resource URIs, and nothing else. -/
def ScreencastView.render (v : ScreencastView) : Html :=
  Html.render v.cspSource v.cssPath v.codiconsUri v.inspectorUri

/-- The message envelope posted into the webview.  `message := none` models an
omitted field (JavaScript `undefined` skipped by the envelope), not JSON
`null`. -/
structure WireEnvelope where
  channel : String
  event : WebSocketEvent
  message : Option String

/-- Webview-panel creation options (`createWebviewPanel`'s third argument). -/
structure PanelOptions where
  enableCommandUris : Bool
  enableScripts : Bool
  retainContextWhenHidden : Bool

/-- Host-side state of one `vscode.WebviewPanel`.  The host clears `visible`
when the panel is disposed (a disposed panel is gone from the UI). -/
structure PanelState where
  options : PanelOptions
  cspSource : String
  visible : Bool
  disposed : Bool
  html : Option Html

/-- State of one `PanelSocket` collaborator (only its disposal is observable
in this file's scope). -/
structure SocketState where
  disposed : Bool

/-- The `vscode.ExtensionContext` fields this file reads. -/
structure ExtensionContext where
  extensionPath : String
  extensionUri : Uri

/-- One constructed `ScreencastPanel` object: the fields assigned in the
private constructor.  (The numeric handle that identifies the object lives in
the `World` map, mirroring object identity.) -/
structure Instance where
  context : ExtensionContext
  extensionPath : String
  targetUrl : String
  panel : PanelState
  socket : SocketState

/-- Every observable side effect on a collaborator, in chronological order. -/
inductive Effect where
  | panelCreated (id : Nat) : Effect
  | constructed (id : Nat) (targetUrl : String) : Effect
  | panelReleased (id : Nat) : Effect
  | socketReleased (id : Nat) : Effect
  | uriResolved (id : Nat) (u : Uri) : Effect
  | htmlSet (id : Nat) (h : Html) : Effect
  | posted (id : Nat) (env : WireEnvelope) : Effect
  | dialogShown (e : Json) : Effect
  | telemetrySent (name : String) (message : String) : Effect
  | forwardedToSocket (id : Nat) (message : String) : Effect

/-- Global state: the static `ScreencastPanel.instance` slot (named `slot`
because `instance` is a Lean keyword), every controller ever constructed
(keyed by a numeric handle; disposed ones stay in the map as stale handles),
the next fresh handle, and the effect trace. -/
structure World where
  slot : Option Nat
  insts : Nat → Option Instance
  nextId : Nat
  trace : List Effect

/-- The state before any `createOrShow` call. -/
def World.init : World := { slot := none, insts := fun _ => none, nextId := 0, trace := [] }

/-- Append one observable side effect. -/
def World.emit (w : World) (e : Effect) : World := { w with trace := w.trace ++ [e] }

/-- Update the controller object behind handle `i`, if it exists. -/
def World.modifyInst (w : World) (i : Nat) (f : Instance → Instance) : World :=
  { w with insts := fun j => if j = i then (w.insts j).map f else w.insts j }

/-! ## The ScreencastPanel operations -/

/-- What the host does to the panel record when the panel is disposed. -/
def panelMark (inst : Instance) : Instance :=
  { inst with panel := { inst.panel with disposed := true, visible := false } }

/-- What `PanelSocket.dispose` does to the socket record. -/
def sockMark (inst : Instance) : Instance :=
  { inst with socket := { disposed := true } }

/-- Modelled from the spec: `PanelSocket.dispose` (the socket-bridge
collaborator, `src/panelSocket` is outside the sources provided) releases the
socket and tolerates repeated invocation. -/
def PanelSocket.dispose (w : World) (i : Nat) : World :=
  match w.insts i with
  | none => w
  | some inst =>
    if inst.socket.disposed then w
    else (w.modifyInst i sockMark).emit (Effect.socketReleased i)

mutual

/-- Embedding of `ScreencastPanel.dispose`: clear the static `instance` slot,
then `this.panel.dispose()`, then `this.panelSocket.dispose()`.  The fuel
bounds the reentrant cycle `panel.dispose -> onDidDispose -> dispose`: the
host marks the panel disposed before firing `onDidDispose`, so the nested
panel disposal is a no-op and fuel 3 already reaches the fixed point. -/
def disposeFuel : Nat → Nat → World → World
  | 0, _, w => w
  | Nat.succ fuel, i, w =>
    PanelSocket.dispose (panelDisposeFuel fuel i { w with slot := none }) i

/-- Host semantics of `WebviewPanel.dispose`: if the panel is not already
disposed, mark it disposed (and no longer visible), record the release, and
fire the `onDidDispose` subscription; repeated disposal is a no-op. -/
def panelDisposeFuel : Nat → Nat → World → World
  | 0, _, w => w
  | Nat.succ fuel, i, w =>
    match w.insts i with
    | none => w
    | some inst =>
      if inst.panel.disposed then w
      else onDidDisposeFuel fuel i ((w.modifyInst i panelMark).emit (Effect.panelReleased i))

/-- The `onDidDispose` subscription wired in the constructor:
`this.dispose(); this.panelSocket.dispose()`. -/
def onDidDisposeFuel : Nat → Nat → World → World
  | 0, _, w => w
  | Nat.succ fuel, i, w => PanelSocket.dispose (disposeFuel fuel i w) i

end

/-- `ScreencastPanel.dispose` on the controller behind handle `i`. -/
def ScreencastPanel.dispose (w : World) (i : Nat) : World := disposeFuel 3 i w

/-- The user closes the panel: the host disposes it and fires `onDidDispose`. -/
def deliverPanelClose (w : World) (i : Nat) : World := panelDisposeFuel 3 i w

/-- The `close` subscription on the socket bridge: `this.onSocketClose()`,
which calls `this.dispose()`. -/
def ScreencastPanel.onSocketClose (w : World) (i : Nat) : World := ScreencastPanel.dispose w i

/-- Delivery of a socket-bridge `close` event on handle `i` (stale handles
included: the subscription exists for every constructed controller). -/
def deliverSocketClose (w : World) (i : Nat) : World :=
  match w.insts i with
  | none => w
  | some _ => ScreencastPanel.onSocketClose w i

/-- Embedding of `ScreencastPanel.getHtmlForWebview`: resolve the bundled
script, the icon-font stylesheet and the view stylesheet, construct the view
renderer with the panel's CSP source, and return its output together with the
list of source URIs handed to `asWebviewUri`, in resolution order. -/
def ScreencastPanel.getHtmlForWebview (inst : Instance) : Html × List Uri :=
  let inspectorPath := Uri.file (pathJoin3 inst.extensionPath ("out/screencast") ("screencast.bundle.js"))
  let inspectorUri := Webview.asWebviewUri inspectorPath
  let codiconsPath := inst.context.extensionUri.joinPath
    [("node_modules"), ("@vscode/codicons"), ("dist"), ("codicon.css")]
  let codiconsUri := Webview.asWebviewUri codiconsPath
  let cssSrcPath := inst.context.extensionUri.joinPath [("out/screencast"), ("view.css")]
  let cssPath := Webview.asWebviewUri cssSrcPath
  let view : ScreencastView :=
    { cspSource := inst.panel.cspSource, cssPath := cssPath, codiconsUri := codiconsUri,
      inspectorUri := inspectorUri }
  (view.render, [inspectorPath, codiconsPath, cssSrcPath])

/-- Embedding of `ScreencastPanel.update`: assign
`this.panel.webview.html = this.getHtmlForWebview()` (unconditionally; the
visibility guard lives at the call site). -/
def ScreencastPanel.update (w : World) (i : Nat) : World :=
  match w.insts i with
  | none => w
  | some inst =>
    let hu := ScreencastPanel.getHtmlForWebview inst
    let w1 : World := { w with trace := w.trace ++ hu.2.map (fun u => Effect.uriResolved i u) }
    (w1.modifyInst i
      (fun inst2 => { inst2 with panel := { inst2.panel with html := some hu.1 } })).emit
      (Effect.htmlSet i hu.1)

/-- The `onDidChangeViewState` subscription wired in the constructor:
`if (this.panel.visible) this.update()`. -/
def ScreencastPanel.onDidChangeViewState (w : World) (i : Nat) : World :=
  match w.insts i with
  | none => w
  | some inst => if inst.panel.visible then ScreencastPanel.update w i else w

/-- The channel name used for every envelope. -/
def wsChannel : String := "websocket"

/-- Modelled from the spec: `encodeMessageForChannel`
(`src/common/webviewEvents` is outside the sources provided) wraps the event
and the optional message into the wire envelope for the named channel and
hands it to the posting callback; an absent message stays omitted, not null. -/
def encodeMessageForChannel (post : WireEnvelope → World) (channel : String)
    (event : WebSocketEvent) (message : Option String) : World :=
  post { channel := channel, event := event, message := message }

/-- Embedding of `ScreencastPanel.postToWebview`. -/
def ScreencastPanel.postToWebview (w : World) (i : Nat) (event : WebSocketEvent)
    (message : Option String) : World :=
  encodeMessageForChannel (fun env => w.emit (Effect.posted i env)) wsChannel event message

/-- The telemetry event name used for unstructured errors. -/
def screencastErrorEvent : String := "view/screencast/error"

/-- The routing condition of `reportError`:
`errorObj.errorCode !== undefined && errorObj.title && errorObj.message`,
evaluated left-to-right with JavaScript short-circuiting.  The property
accesses throw (a TypeError, propagated as `Except.error ()`) exactly when
`errorObj` is `null`. -/
def shouldShowDialog (j : Json) : Except Unit Bool :=
  match j.getField ("errorCode") with
  | Except.error _ => Except.error ()
  | Except.ok ec =>
    if ec.isSome then
      match j.getField ("title") with
      | Except.error _ => Except.error ()
      | Except.ok t =>
        if truthyOpt t then
          match j.getField ("message") with
          | Except.error _ => Except.error ()
          | Except.ok m => Except.ok (truthyOpt m)
        else Except.ok false
    else Except.ok false

/-- Embedding of `ScreencastPanel.reportError`: `JSON.parse` the payload (a
parse failure throws out of the handler before any collaborator is touched,
modelled as `Except.error ()`), then evaluate the routing condition — whose
property accesses throw on a `null` payload — and route to the error dialog
when it holds, to telemetry otherwise. -/
def ScreencastPanel.reportError (w : World) (msg : String) : Except Unit World :=
  match Json.parse msg with
  | none => Except.error ()
  | some errorObj =>
    match shouldShowDialog errorObj with
    | Except.error _ => Except.error ()
    | Except.ok true => Except.ok (w.emit (Effect.dialogShown errorObj))
    | Except.ok false => Except.ok (w.emit (Effect.telemetrySent screencastErrorEvent msg))

/-- Delivery of a socket-bridge `reportError` event on handle `i` (the
subscription body is `msg => this.reportError(msg)`; it reads no panel state,
so the handle only gates whether a subscription exists at all). -/
def deliverSocketReportError (w : World) (i : Nat) (msg : String) : Except Unit World :=
  match w.insts i with
  | none => Except.ok w
  | some _ => ScreencastPanel.reportError w msg

/-- The `onDidReceiveMessage` subscription wired in the constructor: forward
the opaque payload verbatim to `panelSocket.onMessageFromWebview`. -/
def deliverWebviewMessage (w : World) (i : Nat) (message : String) : World :=
  match w.insts i with
  | none => w
  | some _ => w.emit (Effect.forwardedToSocket i message)

/-- The CSP source the host assigns to a freshly created webview. -/
def hostCspSource : String := "vscode-webview-resource:"

/-- Host state of a panel freshly created by `createWebviewPanel` with
`enableCommandUris`, `enableScripts` and `retainContextWhenHidden`: shown
beside the current view column, so visible. -/
def newPanelState : PanelState :=
  { options := { enableCommandUris := true, enableScripts := true, retainContextWhenHidden := true },
    cspSource := hostCspSource, visible := true, disposed := false, html := none }

/-- Embedding of `ScreencastPanel.createOrShow`: if an instance exists,
dispose it; otherwise create a webview panel and construct the controller
bound to it (the constructor wires the five subscriptions and renders
nothing). -/
def ScreencastPanel.createOrShow (w : World) (context : ExtensionContext)
    (targetUrl : String) : World :=
  match w.slot with
  | some i => ScreencastPanel.dispose w i
  | none =>
    let id := w.nextId
    let w1 := w.emit (Effect.panelCreated id)
    let inst : Instance :=
      { context := context, extensionPath := context.extensionPath, targetUrl := targetUrl,
        panel := newPanelState, socket := { disposed := false } }
    let w2 := w1.emit (Effect.constructed id targetUrl)
    { w2 with
        insts := (fun j => if j = id then some inst else w2.insts j),
        nextId := id + 1,
        slot := some id }

/-- Host/environment action: the workbench changes a live panel's visibility
(for example a tab switch).  A disposed panel is gone from the UI and cannot
become visible again. -/
def hostSetVisible (w : World) (i : Nat) (b : Bool) : World :=
  match w.insts i with
  | none => w
  | some inst =>
    if inst.panel.disposed then w
    else w.modifyInst i (fun inst2 => { inst2 with panel := { inst2.panel with visible := b } })

/-- The combined mark `ScreencastPanel.dispose` leaves on the controller it
tears down: the panel host marks the panel (unless already disposed) and the
socket bridge records its release. -/
def dMark (inst : Instance) : Instance :=
  let inst2 := if inst.panel.disposed then inst else panelMark inst
  if inst.socket.disposed then inst2 else sockMark inst2

/-- The guarded socket mark: what `PanelSocket.dispose` does to the one
controller it touches. -/
def sockMarkIf (inst : Instance) : Instance :=
  if inst.socket.disposed then inst else sockMark inst

/-- The guarded mark `WebviewPanel.dispose` (with its `onDidDispose`
subscription) leaves on the one controller it touches. -/
def pdMark (inst : Instance) : Instance :=
  if inst.panel.disposed then inst else sockMarkIf (panelMark inst)

/-- The controller object `createOrShow` constructs in its fresh branch. -/
def freshInst (ctx : ExtensionContext) (u : String) : Instance :=
  { context := ctx, extensionPath := ctx.extensionPath, targetUrl := u,
    panel := newPanelState, socket := { disposed := false } }

/-- The guarded visibility mark of the host action `hostSetVisible`. -/
def vMark (b : Bool) (inst : Instance) : Instance :=
  if inst.panel.disposed then inst
  else { inst with panel := { inst.panel with visible := b } }

/-- The lifecycle view of a controller: its panel's disposed and visible
flags (all that the lifecycle invariants inspect). -/
def lifeView (inst : Instance) : Bool × Bool :=
  (inst.panel.disposed, inst.panel.visible)

/-! ## Invariants and reachability -/

/-- Every controller whose panel is still undisposed is the one registered in
the static slot. -/
def liveOnlySlot (w : World) : Prop :=
  ∀ j inst, w.insts j = some inst → inst.panel.disposed = false → w.slot = some j

/-- At most one controller with an undisposed panel exists process-wide. -/
def atMostOneLive (w : World) : Prop :=
  ∀ i j a b, w.insts i = some a → w.insts j = some b →
    a.panel.disposed = false → b.panel.disposed = false → i = j

/-- A disposed panel is never visible (the host removes it from the UI). -/
def disposedInvisible (w : World) : Prop :=
  ∀ j inst, w.insts j = some inst → inst.panel.disposed = true → inst.panel.visible = false

/-- All states reachable from startup through the public operation, the four
disposal triggers and the five event subscriptions, with stale deliveries
allowed: an event may arrive on the handle of an already-disposed controller
(the spec's disposal race). -/
inductive Reachable : World → Prop where
  | init : Reachable World.init
  | createOrShow (w : World) (ctx : ExtensionContext) (url : String) :
      Reachable w → Reachable (ScreencastPanel.createOrShow w ctx url)
  | dispose (w : World) (i : Nat) (inst : Instance) :
      Reachable w → w.insts i = some inst → Reachable (ScreencastPanel.dispose w i)
  | panelClose (w : World) (i : Nat) : Reachable w → Reachable (deliverPanelClose w i)
  | viewChange (w : World) (i : Nat) :
      Reachable w → Reachable (ScreencastPanel.onDidChangeViewState w i)
  | webviewMessage (w : World) (i : Nat) (msg : String) :
      Reachable w → Reachable (deliverWebviewMessage w i msg)
  | socketClose (w : World) (i : Nat) : Reachable w → Reachable (deliverSocketClose w i)
  | socketReportError (w : World) (i : Nat) (msg : String) (w2 : World) :
      Reachable w → deliverSocketReportError w i msg = Except.ok w2 → Reachable w2
  | hostVisibility (w : World) (i : Nat) (b : Bool) :
      Reachable w → Reachable (hostSetVisible w i b)

/-- Reachability along proper traces: as `Reachable`, but the two disposal
paths that read or clear the static slot (`dispose`, socket `close`) are only
triggered for the controller currently registered in the slot — no stale
disposal deliveries. -/
inductive ReachableProper : World → Prop where
  | init : ReachableProper World.init
  | createOrShow (w : World) (ctx : ExtensionContext) (url : String) :
      ReachableProper w → ReachableProper (ScreencastPanel.createOrShow w ctx url)
  | dispose (w : World) (i : Nat) :
      ReachableProper w → w.slot = some i → ReachableProper (ScreencastPanel.dispose w i)
  | panelClose (w : World) (i : Nat) : ReachableProper w → ReachableProper (deliverPanelClose w i)
  | viewChange (w : World) (i : Nat) :
      ReachableProper w → ReachableProper (ScreencastPanel.onDidChangeViewState w i)
  | webviewMessage (w : World) (i : Nat) (msg : String) :
      ReachableProper w → ReachableProper (deliverWebviewMessage w i msg)
  | socketClose (w : World) (i : Nat) :
      ReachableProper w → w.slot = some i → ReachableProper (deliverSocketClose w i)
  | socketReportError (w : World) (i : Nat) (msg : String) (w2 : World) :
      ReachableProper w → deliverSocketReportError w i msg = Except.ok w2 → ReachableProper w2
  | hostVisibility (w : World) (i : Nat) (b : Bool) :
      ReachableProper w → ReachableProper (hostSetVisible w i b)

/-! ## Concrete scenario data -/

/-- Recognizer for HTML-assignment effects. -/
def isHtmlSetEffect : Effect → Bool
  | Effect.htmlSet _ _ => true
  | _ => false

/-- A concrete extension context. -/
def ctx0 : ExtensionContext := { extensionPath := "/ext", extensionUri := Uri.file ("/ext") }

/-- A second, different extension context. -/
def ctxAlt : ExtensionContext := { extensionPath := "/other", extensionUri := Uri.file ("/other") }

/-- A concrete target URL. -/
def urlA : String := "http://localhost:9222/a"

/-- A second concrete target URL. -/
def urlB : String := "http://localhost:9222/b"

/-- A third concrete target URL. -/
def urlC : String := "http://localhost:9222/c"

/-- The state after one `createOrShow` from startup: controller 0 is live. -/
def w1c : World := ScreencastPanel.createOrShow World.init ctx0 urlA

/-- `w1c` with controller 0's panel hidden by the host (tab switched away). -/
def cwInvis : World := hostSetVisible w1c 0 false

/-- Controller 0 as it exists in `cwInvis`. -/
def instInvis : Instance :=
  { context := ctx0, extensionPath := "/ext", targetUrl := urlA,
    panel := { newPanelState with visible := false },
    socket := { disposed := false } }

/-- `w1c` after the socket bridge signalled `close`: controller 0 is fully
torn down but its stale handle remains. -/
def wStale : World := deliverSocketClose w1c 0

/-- Controller 0 as it exists in `wStale`: panel and socket both released. -/
def instStale : Instance :=
  { context := ctx0, extensionPath := "/ext", targetUrl := urlA,
    panel := { newPanelState with visible := false, disposed := true },
    socket := { disposed := true } }

/-- The stale-disposal race: create controller 0, tear it down via socket
close, create controller 1, deliver a second (stale) socket close on handle 0
— which clears the slot while controller 1 is live — then `createOrShow`
again, creating controller 2 while controller 1's panel is still open. -/
def wBad : World :=
  ScreencastPanel.createOrShow
    (deliverSocketClose (ScreencastPanel.createOrShow wStale ctx0 urlB) 0) ctx0 urlC

/-- Controller 1 as it exists in `wBad` (still live). -/
def instB : Instance :=
  { context := ctx0, extensionPath := "/ext", targetUrl := urlB,
    panel := newPanelState, socket := { disposed := false } }

/-- Controller 2 as it exists in `wBad` (also live). -/
def instC : Instance :=
  { context := ctx0, extensionPath := "/ext", targetUrl := urlC,
    panel := newPanelState, socket := { disposed := false } }

/-- The unstructured error payload of the spec's telemetry example. -/
def rawFoo : String := "\x7b\"foo\":\"bar\"\x7d"

/-- A payload that is not valid JSON. -/
def badRaw : String := "not json"

@[simp] theorem World.emit_insts (w : World) (e : Effect) : (w.emit e).insts = w.insts := rfl

@[simp] theorem World.emit_slot (w : World) (e : Effect) : (w.emit e).slot = w.slot := rfl

@[simp] theorem World.emit_nextId (w : World) (e : Effect) : (w.emit e).nextId = w.nextId := rfl

@[simp] theorem World.emit_trace (w : World) (e : Effect) : (w.emit e).trace = w.trace ++ [e] := rfl

@[simp] theorem World.modifyInst_insts (w : World) (i : Nat) (f : Instance → Instance) (j : Nat) :
    (w.modifyInst i f).insts j = if j = i then (w.insts j).map f else w.insts j := rfl

@[simp] theorem World.modifyInst_slot (w : World) (i : Nat) (f : Instance → Instance) :
    (w.modifyInst i f).slot = w.slot := rfl

@[simp] theorem World.modifyInst_nextId (w : World) (i : Nat) (f : Instance → Instance) :
    (w.modifyInst i f).nextId = w.nextId := rfl

@[simp] theorem World.modifyInst_trace (w : World) (i : Nat) (f : Instance → Instance) :
    (w.modifyInst i f).trace = w.trace := rfl

@[simp] theorem panelMark_socket (inst : Instance) : (panelMark inst).socket = inst.socket := rfl

@[simp] theorem panelMark_panel_disposed (inst : Instance) :
    (panelMark inst).panel.disposed = true := rfl

@[simp] theorem panelMark_panel_visible (inst : Instance) :
    (panelMark inst).panel.visible = false := rfl

@[simp] theorem sockMark_panel (inst : Instance) : (sockMark inst).panel = inst.panel := rfl

@[simp] theorem sockMark_socket_disposed (inst : Instance) :
    (sockMark inst).socket.disposed = true := rfl

theorem disposeFuel_three (i : Nat) (w : World) :
    disposeFuel 3 i w = PanelSocket.dispose (panelDisposeFuel 2 i { w with slot := none }) i := rfl

theorem panelDisposeFuel_step (i : Nat) (w : World) :
    panelDisposeFuel 2 i w =
      (match w.insts i with
        | none => w
        | some inst =>
          if inst.panel.disposed then w
          else onDidDisposeFuel 1 i ((w.modifyInst i panelMark).emit (Effect.panelReleased i))) := rfl

theorem panelDisposeFuel_three_step (i : Nat) (w : World) :
    panelDisposeFuel 3 i w =
      (match w.insts i with
        | none => w
        | some inst =>
          if inst.panel.disposed then w
          else onDidDisposeFuel 2 i ((w.modifyInst i panelMark).emit (Effect.panelReleased i))) := rfl

theorem onDidDisposeFuel_one (i : Nat) (w : World) :
    onDidDisposeFuel 1 i w = PanelSocket.dispose w i := rfl

theorem onDidDisposeFuel_two (i : Nat) (w : World) :
    onDidDisposeFuel 2 i w = PanelSocket.dispose (disposeFuel 1 i w) i := rfl

theorem disposeFuel_one (i : Nat) (w : World) :
    disposeFuel 1 i w = PanelSocket.dispose { w with slot := none } i := rfl


theorem dMark_panel_disposed (inst : Instance) : (dMark inst).panel.disposed = true := by
  unfold dMark
  cases hp : inst.panel.disposed <;> cases hs : inst.socket.disposed <;> simp [hp, hs]

theorem dMark_socket_disposed (inst : Instance) : (dMark inst).socket.disposed = true := by
  unfold dMark
  cases hp : inst.panel.disposed <;> cases hs : inst.socket.disposed <;> simp [hp, hs]

theorem dMark_panel_visible (inst : Instance) :
    (dMark inst).panel.visible = (inst.panel.disposed && inst.panel.visible) := by
  unfold dMark
  cases hp : inst.panel.disposed <;> cases hs : inst.socket.disposed <;> simp [hp, hs]



theorem socketDispose_slot (w : World) (i : Nat) :
    (PanelSocket.dispose w i).slot = w.slot := by
  unfold PanelSocket.dispose
  cases h : w.insts i with
  | none => rfl
  | some inst => cases hs : inst.socket.disposed <;> simp [hs]

theorem socketDispose_nextId (w : World) (i : Nat) :
    (PanelSocket.dispose w i).nextId = w.nextId := by
  unfold PanelSocket.dispose
  cases h : w.insts i with
  | none => rfl
  | some inst => cases hs : inst.socket.disposed <;> simp [hs]

theorem socketDispose_insts (w : World) (i : Nat) (j : Nat) :
    (PanelSocket.dispose w i).insts j =
      if j = i then (w.insts j).map sockMarkIf else w.insts j := by
  unfold PanelSocket.dispose
  cases h : w.insts i with
  | none =>
    by_cases hj : j = i
    · subst hj; simp [h]
    · simp [hj]
  | some inst =>
    cases hs : inst.socket.disposed with
    | true =>
      by_cases hj : j = i
      · subst hj; simp [h, sockMarkIf, hs]
      · simp [hj, hs]
    | false =>
      by_cases hj : j = i
      · subst hj; simp [h, sockMarkIf, hs]
      · simp [hj, hs]


theorem panelDisposeFuel_two_slot (i : Nat) (w : World) :
    (panelDisposeFuel 2 i w).slot = w.slot := by
  rw [panelDisposeFuel_step]
  cases ho : w.insts i with
  | none => rfl
  | some inst =>
    cases hp : inst.panel.disposed with
    | true => simp [hp]
    | false => simp [hp, onDidDisposeFuel_one, socketDispose_slot]

theorem panelDisposeFuel_two_nextId (i : Nat) (w : World) :
    (panelDisposeFuel 2 i w).nextId = w.nextId := by
  rw [panelDisposeFuel_step]
  cases ho : w.insts i with
  | none => rfl
  | some inst =>
    cases hp : inst.panel.disposed with
    | true => simp [hp]
    | false => simp [hp, onDidDisposeFuel_one, socketDispose_nextId]

theorem panelDisposeFuel_two_insts (i : Nat) (w : World) (j : Nat) :
    (panelDisposeFuel 2 i w).insts j =
      if j = i then (w.insts j).map pdMark else w.insts j := by
  rw [panelDisposeFuel_step]
  cases ho : w.insts i with
  | none =>
    by_cases hj : j = i
    · subst hj; simp [ho]
    · simp [hj]
  | some inst =>
    cases hp : inst.panel.disposed with
    | true =>
      by_cases hj : j = i
      · subst hj; simp [ho, hp, pdMark]
      · simp [hj, hp]
    | false =>
      by_cases hj : j = i
      · subst hj
        simp [ho, hp, onDidDisposeFuel_one, socketDispose_insts, pdMark]
      · simp [hj, hp, onDidDisposeFuel_one, socketDispose_insts]

theorem dispose_slot (w : World) (i : Nat) : (ScreencastPanel.dispose w i).slot = none := by
  show (disposeFuel 3 i w).slot = none
  rw [disposeFuel_three, socketDispose_slot, panelDisposeFuel_two_slot]

theorem dispose_nextId (w : World) (i : Nat) :
    (ScreencastPanel.dispose w i).nextId = w.nextId := by
  show (disposeFuel 3 i w).nextId = w.nextId
  rw [disposeFuel_three, socketDispose_nextId, panelDisposeFuel_two_nextId]

theorem sockMarkIf_pdMark (inst : Instance) : sockMarkIf (pdMark inst) = dMark inst := by
  unfold pdMark dMark sockMarkIf sockMark panelMark
  cases hp : inst.panel.disposed <;> cases hs : inst.socket.disposed <;> simp [hp, hs]

theorem dispose_insts (w : World) (i : Nat) (j : Nat) :
    (ScreencastPanel.dispose w i).insts j =
      if j = i then (w.insts j).map dMark else w.insts j := by
  show (disposeFuel 3 i w).insts j = _
  rw [disposeFuel_three, socketDispose_insts, panelDisposeFuel_two_insts]
  by_cases hj : j = i
  · subst hj
    simp only [if_pos rfl]
    cases ho : w.insts j with
    | none => simp [ho]
    | some inst => simp [ho, sockMarkIf_pdMark]
  · simp [hj]

theorem World.update_slot_none (w : World) (h : w.slot = none) :
    ({ w with slot := none } : World) = w := by
  cases w with
  | mk s ins nid tr =>
    simp only at h
    rw [show s = (none : Option Nat) from h]

theorem dispose_noop (w : World) (i : Nat)
    (h : ∀ inst, w.insts i = some inst →
      inst.panel.disposed = true ∧ inst.socket.disposed = true) :
    ScreencastPanel.dispose w i = { w with slot := none } := by
  show disposeFuel 3 i w = _
  rw [disposeFuel_three, panelDisposeFuel_step]
  cases ho : w.insts i with
  | none => simp [PanelSocket.dispose, ho]
  | some inst =>
    obtain ⟨hp, hs⟩ := h inst ho
    simp [PanelSocket.dispose, ho, hp, hs]

/-- C7: `ScreencastPanel.dispose` is idempotent — a second call is a no-op on
the whole observable state (slot, controllers, trace): the slot is already
cleared, and the panel host and socket bridge both tolerate repeated
disposal. -/
theorem dispose_idempotent (w : World) (i : Nat) :
    ScreencastPanel.dispose (ScreencastPanel.dispose w i) i = ScreencastPanel.dispose w i := by
  have hnoop : ScreencastPanel.dispose (ScreencastPanel.dispose w i) i
      = { ScreencastPanel.dispose w i with slot := none } := by
    apply dispose_noop
    intro inst h
    rw [dispose_insts] at h
    simp only [if_pos rfl] at h
    cases ho : w.insts i with
    | none => rw [ho] at h; simp at h
    | some inst0 =>
      rw [ho] at h
      simp at h
      subst h
      exact ⟨dMark_panel_disposed inst0, dMark_socket_disposed inst0⟩
  rw [hnoop, World.update_slot_none _ (dispose_slot w i)]

/-- C2: when an instance already exists, `createOrShow` is exactly the
disposal of that instance: the slot ends empty, no controller is constructed
(handles in use are unchanged), and the `context`/`targetUrl` arguments are
discarded — any two argument pairs yield the same state. -/
theorem createOrShow_existing (w : World) (i : Nat) (ctx ctx2 : ExtensionContext)
    (u u2 : String) (h : w.slot = some i) :
    ScreencastPanel.createOrShow w ctx u = ScreencastPanel.dispose w i ∧
    ScreencastPanel.createOrShow w ctx u = ScreencastPanel.createOrShow w ctx2 u2 ∧
    (ScreencastPanel.createOrShow w ctx u).slot = none ∧
    (∀ j, (ScreencastPanel.createOrShow w ctx u).insts j = none ↔ w.insts j = none) := by
  have he : ∀ ctx3 u3, ScreencastPanel.createOrShow w ctx3 u3 = ScreencastPanel.dispose w i := by
    intro ctx3 u3
    unfold ScreencastPanel.createOrShow
    rw [h]
  refine ⟨he ctx u, ?_, ?_, ?_⟩
  · rw [he, he]
  · rw [he]; exact dispose_slot w i
  · intro j
    rw [he, dispose_insts]
    by_cases hj : j = i
    · subst hj
      simp only [if_pos rfl]
      cases ho : w.insts j <;> simp
    · simp [hj]

theorem createOrShow_existing_witness :
    ScreencastPanel.createOrShow w1c ctxAlt urlB = ScreencastPanel.dispose w1c 0 ∧
    ScreencastPanel.createOrShow w1c ctxAlt urlB = ScreencastPanel.createOrShow w1c ctx0 urlC ∧
    (ScreencastPanel.createOrShow w1c ctxAlt urlB).slot = none := by
  obtain ⟨h1, h2, h3, _⟩ := createOrShow_existing w1c 0 ctxAlt ctx0 urlB urlC (by rfl)
  exact ⟨h1, h2, h3⟩

/-- C1 counterexample: two successive `createOrShow` calls from startup leave
zero active instances, not one — the slot is empty, the only constructed
controller is disposed, and no second controller exists. -/
theorem createOrShow_twice_no_active_instance :
    (ScreencastPanel.createOrShow w1c ctx0 urlB).slot = none ∧
    ((ScreencastPanel.createOrShow w1c ctx0 urlB).insts 0).map
      (fun inst => inst.panel.disposed) = some true ∧
    (ScreencastPanel.createOrShow w1c ctx0 urlB).insts 1 = none := ⟨rfl, rfl, rfl⟩

/-- C1 (amended): two successive `createOrShow` calls from startup leave the
slot empty: the second call performs the first controller's disposal side
effects (panel release, then socket release) and constructs no second
controller — the full effect trace is creation and construction of controller
0 followed by its two releases, with no second construction. -/
theorem createOrShow_twice_disposes_only (ctx ctx2 : ExtensionContext) (u1 u2 : String) :
    (ScreencastPanel.createOrShow (ScreencastPanel.createOrShow World.init ctx u1) ctx2 u2).slot
      = none ∧
    (ScreencastPanel.createOrShow (ScreencastPanel.createOrShow World.init ctx u1) ctx2 u2).trace
      = [Effect.panelCreated 0, Effect.constructed 0 u1, Effect.panelReleased 0,
         Effect.socketReleased 0] := ⟨rfl, rfl⟩

/-- C3 counterexample: with the panel not visible, invoking `update()` still
runs the render path — an HTML-assignment effect is recorded and the panel's
html field is set (the visibility guard sits in the view-state handler, not in
`update` itself). -/
theorem update_renders_when_invisible :
    (cwInvis.insts 0).map (fun inst => inst.panel.visible) = some false ∧
    ((ScreencastPanel.update cwInvis 0).trace.filter isHtmlSetEffect).length = 1 ∧
    ((ScreencastPanel.update cwInvis 0).insts 0).map
      (fun inst => inst.panel.html.isSome) = some true := ⟨rfl, rfl, rfl⟩

/-- C3 (amended): the visibility guard lives at `update`'s only call site: a
view-state-change event delivered while the panel is not visible is a no-op —
in particular no HTML is assigned. -/
theorem viewChange_invisible_noop (w : World) (i : Nat) (inst : Instance)
    (h1 : w.insts i = some inst) (h2 : inst.panel.visible = false) :
    ScreencastPanel.onDidChangeViewState w i = w := by
  unfold ScreencastPanel.onDidChangeViewState
  rw [h1]
  simp [h2]

theorem viewChange_invisible_noop_witness :
    ScreencastPanel.onDidChangeViewState cwInvis 0 = cwInvis :=
  viewChange_invisible_noop cwInvis 0 instInvis (by rfl) (by rfl)

/-- C8: `postToWebview` posts exactly one envelope, with channel
`"websocket"` and the exact event and optional message passed; an absent
message stays omitted (`none`), never null. -/
theorem postToWebview_envelope (w : World) (i : Nat) (e : WebSocketEvent) (m : Option String) :
    ScreencastPanel.postToWebview w i e m =
      { w with trace := w.trace ++
          [Effect.posted i { channel := "websocket", event := e, message := m }] } := rfl

/-- C9: `getHtmlForWebview` resolves exactly the three static resource URIs
(bundled script, icon-font stylesheet, view stylesheet), hands the panel's
CSP source unchanged to the view renderer, and returns the renderer's output
verbatim. -/
theorem getHtmlForWebview_resolves (inst : Instance) :
    ScreencastPanel.getHtmlForWebview inst =
      ((ScreencastView.mk inst.panel.cspSource
          (Webview.asWebviewUri (inst.context.extensionUri.joinPath
            [("out/screencast"), ("view.css")]))
          (Webview.asWebviewUri (inst.context.extensionUri.joinPath
            [("node_modules"), ("@vscode/codicons"), ("dist"), ("codicon.css")]))
          (Webview.asWebviewUri (Uri.file (pathJoin3 inst.extensionPath ("out/screencast")
            ("screencast.bundle.js"))))).render,
       [Uri.file (pathJoin3 inst.extensionPath ("out/screencast") ("screencast.bundle.js")),
        inst.context.extensionUri.joinPath
          [("node_modules"), ("@vscode/codicons"), ("dist"), ("codicon.css")],
        inst.context.extensionUri.joinPath [("out/screencast"), ("view.css")]]) := rfl

theorem panelClose_none (w : World) (i : Nat) (h : w.insts i = none) :
    deliverPanelClose w i = w := by
  show panelDisposeFuel 3 i w = w
  rw [panelDisposeFuel_three_step]
  simp [h]

theorem panelClose_disposed (w : World) (i : Nat) (inst : Instance)
    (h : w.insts i = some inst) (hd : inst.panel.disposed = true) :
    deliverPanelClose w i = w := by
  show panelDisposeFuel 3 i w = w
  rw [panelDisposeFuel_three_step]
  simp [h, hd]

theorem panelClose_live_eq_dispose (w : World) (i : Nat) (inst : Instance)
    (h : w.insts i = some inst) (hd : inst.panel.disposed = false) :
    deliverPanelClose w i = ScreencastPanel.dispose w i := by
  show panelDisposeFuel 3 i w = disposeFuel 3 i w
  rw [panelDisposeFuel_three_step, disposeFuel_three, panelDisposeFuel_step]
  simp only [h, hd, Bool.false_eq_true, if_false, onDidDisposeFuel_two, onDidDisposeFuel_one,
    disposeFuel_one]
  rfl

theorem update_slot (w : World) (i : Nat) : (ScreencastPanel.update w i).slot = w.slot := by
  unfold ScreencastPanel.update
  cases ho : w.insts i <;> simp

theorem update_life (w : World) (i : Nat) (j : Nat) :
    ((ScreencastPanel.update w i).insts j).map lifeView = (w.insts j).map lifeView := by
  unfold ScreencastPanel.update
  cases ho : w.insts i with
  | none => rfl
  | some inst =>
    by_cases hj : j = i
    · subst hj
      simp [ho, lifeView]
    · simp [hj]

theorem viewChange_slot (w : World) (i : Nat) :
    (ScreencastPanel.onDidChangeViewState w i).slot = w.slot := by
  unfold ScreencastPanel.onDidChangeViewState
  cases ho : w.insts i with
  | none => rfl
  | some inst =>
    cases hv : inst.panel.visible with
    | true => simp [hv, update_slot]
    | false => simp [hv]

theorem viewChange_life (w : World) (i : Nat) (j : Nat) :
    ((ScreencastPanel.onDidChangeViewState w i).insts j).map lifeView
      = (w.insts j).map lifeView := by
  unfold ScreencastPanel.onDidChangeViewState
  cases ho : w.insts i with
  | none => rfl
  | some inst =>
    cases hv : inst.panel.visible with
    | true => simp [hv, update_life]
    | false => simp [hv]

theorem webviewMessage_insts (w : World) (i : Nat) (m : String) :
    (deliverWebviewMessage w i m).insts = w.insts := by
  unfold deliverWebviewMessage
  cases ho : w.insts i <;> rfl

theorem webviewMessage_slot (w : World) (i : Nat) (m : String) :
    (deliverWebviewMessage w i m).slot = w.slot := by
  unfold deliverWebviewMessage
  cases ho : w.insts i <;> rfl

theorem reportError_ok (w : World) (msg : String) (w2 : World)
    (h : ScreencastPanel.reportError w msg = Except.ok w2) :
    w2.insts = w.insts ∧ w2.slot = w.slot := by
  unfold ScreencastPanel.reportError at h
  cases hp : Json.parse msg with
  | none => rw [hp] at h; exact Except.noConfusion h
  | some j =>
    rw [hp] at h
    cases hs : shouldShowDialog j with
    | error e => simp [hs] at h
    | ok b =>
      cases b with
      | true => simp [hs] at h; subst h; exact ⟨rfl, rfl⟩
      | false => simp [hs] at h; subst h; exact ⟨rfl, rfl⟩

theorem socketReportError_ok (w : World) (i : Nat) (msg : String) (w2 : World)
    (h : deliverSocketReportError w i msg = Except.ok w2) :
    w2.insts = w.insts ∧ w2.slot = w.slot := by
  unfold deliverSocketReportError at h
  cases ho : w.insts i with
  | none => rw [ho] at h; cases h; exact ⟨rfl, rfl⟩
  | some inst => rw [ho] at h; exact reportError_ok w msg w2 h

theorem hostSetVisible_slot (w : World) (i : Nat) (b : Bool) :
    (hostSetVisible w i b).slot = w.slot := by
  unfold hostSetVisible
  cases ho : w.insts i with
  | none => rfl
  | some inst => cases hd : inst.panel.disposed <;> simp [hd]

theorem hostSetVisible_insts (w : World) (i : Nat) (b : Bool) (j : Nat) :
    (hostSetVisible w i b).insts j =
      if j = i then (w.insts j).map (vMark b) else w.insts j := by
  unfold hostSetVisible
  cases ho : w.insts i with
  | none =>
    by_cases hj : j = i
    · subst hj; simp [ho]
    · simp [hj]
  | some inst =>
    cases hd : inst.panel.disposed with
    | true =>
      by_cases hj : j = i
      · subst hj; simp [ho, hd, vMark]
      · simp [hj, hd]
    | false =>
      by_cases hj : j = i
      · subst hj; simp [ho, hd, vMark]
      · simp [hj, hd]

theorem createOrShow_slotted (w : World) (i : Nat) (ctx : ExtensionContext) (u : String)
    (h : w.slot = some i) :
    ScreencastPanel.createOrShow w ctx u = ScreencastPanel.dispose w i := by
  unfold ScreencastPanel.createOrShow
  rw [h]

theorem createOrShow_fresh (w : World) (ctx : ExtensionContext) (u : String)
    (h : w.slot = none) :
    (ScreencastPanel.createOrShow w ctx u).slot = some w.nextId ∧
    ∀ j, (ScreencastPanel.createOrShow w ctx u).insts j =
      if j = w.nextId then some (freshInst ctx u) else w.insts j := by
  unfold ScreencastPanel.createOrShow
  rw [h]
  exact ⟨rfl, fun j => rfl⟩

theorem vMark_panel_disposed (b : Bool) (inst : Instance) :
    (vMark b inst).panel.disposed = inst.panel.disposed := by
  unfold vMark
  cases hb : inst.panel.disposed <;> simp [hb]

theorem vMark_disposed_eq (b : Bool) (inst : Instance) (h : inst.panel.disposed = true) :
    vMark b inst = inst := by
  unfold vMark
  simp [h]

theorem disposedInvisible_dispose (w : World) (i : Nat) (ih : disposedInvisible w) :
    disposedInvisible (ScreencastPanel.dispose w i) := by
  intro j inst hj hd
  rw [dispose_insts] at hj
  by_cases hji : j = i
  · subst hji
    rw [if_pos rfl] at hj
    cases ho : w.insts j with
    | none => rw [ho] at hj; exact Option.noConfusion hj
    | some inst0 =>
      rw [ho] at hj
      simp at hj
      subst hj
      rw [dMark_panel_visible]
      cases hb : inst0.panel.disposed with
      | true => rw [ih j inst0 ho hb]; simp
      | false => simp
  · rw [if_neg hji] at hj
    exact ih j inst hj hd

theorem disposedInvisible_createOrShow (w : World) (ctx : ExtensionContext) (u : String)
    (ih : disposedInvisible w) :
    disposedInvisible (ScreencastPanel.createOrShow w ctx u) := by
  cases hs : w.slot with
  | some i =>
    rw [createOrShow_slotted w i ctx u hs]
    exact disposedInvisible_dispose w i ih
  | none =>
    obtain ⟨h1, h2⟩ := createOrShow_fresh w ctx u hs
    intro j inst hj hd
    rw [h2 j] at hj
    by_cases hjn : j = w.nextId
    · rw [if_pos hjn] at hj
      simp at hj
      subst hj
      exact absurd hd (by simp [freshInst, newPanelState])
    · rw [if_neg hjn] at hj
      exact ih j inst hj hd

theorem disposedInvisible_panelClose (w : World) (i : Nat) (ih : disposedInvisible w) :
    disposedInvisible (deliverPanelClose w i) := by
  cases ho : w.insts i with
  | none => rw [panelClose_none w i ho]; exact ih
  | some inst =>
    cases hd : inst.panel.disposed with
    | true => rw [panelClose_disposed w i inst ho hd]; exact ih
    | false =>
      rw [panelClose_live_eq_dispose w i inst ho hd]
      exact disposedInvisible_dispose w i ih

theorem disposedInvisible_socketClose (w : World) (i : Nat) (ih : disposedInvisible w) :
    disposedInvisible (deliverSocketClose w i) := by
  unfold deliverSocketClose
  cases ho : w.insts i with
  | none => exact ih
  | some inst => exact disposedInvisible_dispose w i ih

theorem disposedInvisible_viewChange (w : World) (i : Nat) (ih : disposedInvisible w) :
    disposedInvisible (ScreencastPanel.onDidChangeViewState w i) := by
  intro j inst hj hd
  have hl := viewChange_life w i j
  rw [hj] at hl
  cases ho : w.insts j with
  | none => rw [ho] at hl; exact Option.noConfusion hl
  | some inst0 =>
    rw [ho] at hl
    simp [lifeView] at hl
    rw [hl.2]
    exact ih j inst0 ho (by rw [← hl.1]; exact hd)

theorem disposedInvisible_webviewMessage (w : World) (i : Nat) (m : String)
    (ih : disposedInvisible w) : disposedInvisible (deliverWebviewMessage w i m) := by
  intro j inst hj hd
  rw [webviewMessage_insts] at hj
  exact ih j inst hj hd

theorem disposedInvisible_socketReportError (w : World) (i : Nat) (msg : String) (w2 : World)
    (h : deliverSocketReportError w i msg = Except.ok w2) (ih : disposedInvisible w) :
    disposedInvisible w2 := by
  obtain ⟨hi, _⟩ := socketReportError_ok w i msg w2 h
  intro j inst hj hd
  rw [hi] at hj
  exact ih j inst hj hd

theorem disposedInvisible_hostSetVisible (w : World) (i : Nat) (b : Bool)
    (ih : disposedInvisible w) : disposedInvisible (hostSetVisible w i b) := by
  intro j inst hj hd
  rw [hostSetVisible_insts] at hj
  by_cases hji : j = i
  · subst hji
    rw [if_pos rfl] at hj
    cases ho : w.insts j with
    | none => rw [ho] at hj; exact Option.noConfusion hj
    | some inst0 =>
      rw [ho] at hj
      simp at hj
      subst hj
      rw [vMark_panel_disposed] at hd
      rw [vMark_disposed_eq b inst0 hd]
      exact ih j inst0 ho hd
  · rw [if_neg hji] at hj
    exact ih j inst hj hd

theorem disposedInvisible_reachable (w : World) (h : Reachable w) : disposedInvisible w := by
  induction h with
  | init => intro j inst hj hd; exact Option.noConfusion hj
  | createOrShow w ctx url hr ih => exact disposedInvisible_createOrShow w ctx url ih
  | dispose w i inst hr hin ih => exact disposedInvisible_dispose w i ih
  | panelClose w i hr ih => exact disposedInvisible_panelClose w i ih
  | viewChange w i hr ih => exact disposedInvisible_viewChange w i ih
  | webviewMessage w i msg hr ih => exact disposedInvisible_webviewMessage w i msg ih
  | socketClose w i hr ih => exact disposedInvisible_socketClose w i ih
  | socketReportError w i msg w2 hr hok ih =>
    exact disposedInvisible_socketReportError w i msg w2 hok ih
  | hostVisibility w i b hr ih => exact disposedInvisible_hostSetVisible w i b ih

theorem liveOnlySlot_dispose_slotted (w : World) (i : Nat) (h : w.slot = some i)
    (ih : liveOnlySlot w) : liveOnlySlot (ScreencastPanel.dispose w i) := by
  intro j inst hj hlive
  exfalso
  rw [dispose_insts] at hj
  by_cases hji : j = i
  · subst hji
    rw [if_pos rfl] at hj
    cases ho : w.insts j with
    | none => rw [ho] at hj; exact Option.noConfusion hj
    | some inst0 =>
      rw [ho] at hj
      simp at hj
      subst hj
      rw [dMark_panel_disposed] at hlive
      exact Bool.noConfusion hlive
  · rw [if_neg hji] at hj
    have hsj := ih j inst hj hlive
    rw [h] at hsj
    exact hji (Option.some.inj hsj).symm

theorem liveOnlySlot_createOrShow (w : World) (ctx : ExtensionContext) (u : String)
    (ih : liveOnlySlot w) : liveOnlySlot (ScreencastPanel.createOrShow w ctx u) := by
  cases hs : w.slot with
  | some i =>
    rw [createOrShow_slotted w i ctx u hs]
    exact liveOnlySlot_dispose_slotted w i hs ih
  | none =>
    obtain ⟨h1, h2⟩ := createOrShow_fresh w ctx u hs
    intro j inst hj hlive
    rw [h2 j] at hj
    by_cases hjn : j = w.nextId
    · subst hjn
      rw [h1]
    · rw [if_neg hjn] at hj
      have hsj := ih j inst hj hlive
      rw [hs] at hsj
      exact Option.noConfusion hsj

theorem liveOnlySlot_panelClose (w : World) (i : Nat) (ih : liveOnlySlot w) :
    liveOnlySlot (deliverPanelClose w i) := by
  cases ho : w.insts i with
  | none => rw [panelClose_none w i ho]; exact ih
  | some inst =>
    cases hd : inst.panel.disposed with
    | true => rw [panelClose_disposed w i inst ho hd]; exact ih
    | false =>
      have hslot : w.slot = some i := ih i inst ho hd
      rw [panelClose_live_eq_dispose w i inst ho hd]
      exact liveOnlySlot_dispose_slotted w i hslot ih

theorem liveOnlySlot_socketClose (w : World) (i : Nat) (h : w.slot = some i)
    (ih : liveOnlySlot w) : liveOnlySlot (deliverSocketClose w i) := by
  unfold deliverSocketClose
  cases ho : w.insts i with
  | none => exact ih
  | some inst => exact liveOnlySlot_dispose_slotted w i h ih

theorem liveOnlySlot_viewChange (w : World) (i : Nat) (ih : liveOnlySlot w) :
    liveOnlySlot (ScreencastPanel.onDidChangeViewState w i) := by
  intro j inst hj hlive
  rw [viewChange_slot]
  have hl := viewChange_life w i j
  rw [hj] at hl
  cases ho : w.insts j with
  | none => rw [ho] at hl; exact Option.noConfusion hl
  | some inst0 =>
    rw [ho] at hl
    simp [lifeView] at hl
    exact ih j inst0 ho (by rw [← hl.1]; exact hlive)

theorem liveOnlySlot_webviewMessage (w : World) (i : Nat) (m : String)
    (ih : liveOnlySlot w) : liveOnlySlot (deliverWebviewMessage w i m) := by
  intro j inst hj hlive
  rw [webviewMessage_slot]
  rw [webviewMessage_insts] at hj
  exact ih j inst hj hlive

theorem liveOnlySlot_socketReportError (w : World) (i : Nat) (msg : String) (w2 : World)
    (h : deliverSocketReportError w i msg = Except.ok w2) (ih : liveOnlySlot w) :
    liveOnlySlot w2 := by
  obtain ⟨hi, hslot⟩ := socketReportError_ok w i msg w2 h
  intro j inst hj hlive
  rw [hslot]
  rw [hi] at hj
  exact ih j inst hj hlive

theorem liveOnlySlot_hostSetVisible (w : World) (i : Nat) (b : Bool)
    (ih : liveOnlySlot w) : liveOnlySlot (hostSetVisible w i b) := by
  intro j inst hj hlive
  rw [hostSetVisible_slot]
  rw [hostSetVisible_insts] at hj
  by_cases hji : j = i
  · subst hji
    rw [if_pos rfl] at hj
    cases ho : w.insts j with
    | none => rw [ho] at hj; exact Option.noConfusion hj
    | some inst0 =>
      rw [ho] at hj
      simp at hj
      subst hj
      rw [vMark_panel_disposed] at hlive
      exact ih j inst0 ho hlive
  · rw [if_neg hji] at hj
    exact ih j inst hj hlive

theorem liveOnlySlot_reachableProper (w : World) (h : ReachableProper w) : liveOnlySlot w := by
  induction h with
  | init => intro j inst hj hlive; exact Option.noConfusion hj
  | createOrShow w ctx url hr ih => exact liveOnlySlot_createOrShow w ctx url ih
  | dispose w i hr hs ih => exact liveOnlySlot_dispose_slotted w i hs ih
  | panelClose w i hr ih => exact liveOnlySlot_panelClose w i ih
  | viewChange w i hr ih => exact liveOnlySlot_viewChange w i ih
  | webviewMessage w i msg hr ih => exact liveOnlySlot_webviewMessage w i msg ih
  | socketClose w i hr hs ih => exact liveOnlySlot_socketClose w i hs ih
  | socketReportError w i msg w2 hr hok ih =>
    exact liveOnlySlot_socketReportError w i msg w2 hok ih
  | hostVisibility w i b hr ih => exact liveOnlySlot_hostSetVisible w i b ih

/-- C6 counterexample: events arriving after teardown are not all absorbed as
no-ops, and they can throw — a socket `reportError` event delivered on the
stale handle of a disposed controller still throws on a malformed payload and
still reaches the telemetry collaborator (a state change) on a well-formed
one. -/
theorem stale_reportError_not_noop :
    (wStale.insts 0).map (fun inst => inst.panel.disposed) = some true ∧
    deliverSocketReportError wStale 0 badRaw = Except.error () ∧
    deliverSocketReportError wStale 0 rawFoo
      = Except.ok (wStale.emit (Effect.telemetrySent screencastErrorEvent rawFoo)) :=
  ⟨rfl, rfl, rfl⟩

/-- C6 (amended): in every reachable state, once a controller is disposed, a
subsequently delivered visibility-change event on its stale handle is a no-op
(in particular no HTML render and no exception — the handler is total), and a
repeated panel-dispose event is likewise a no-op; socket `reportError` events
are not guarded by disposal and are exempt from this. -/
theorem stale_event_after_teardown (w : World) (hr : Reachable w) (i : Nat) (inst : Instance)
    (h : w.insts i = some inst) (hd : inst.panel.disposed = true) :
    ScreencastPanel.onDidChangeViewState w i = w ∧ deliverPanelClose w i = w := by
  have hv : inst.panel.visible = false := disposedInvisible_reachable w hr i inst h hd
  constructor
  · unfold ScreencastPanel.onDidChangeViewState
    rw [h]
    simp [hv]
  · exact panelClose_disposed w i inst h hd

theorem stale_event_after_teardown_witness :
    ScreencastPanel.onDidChangeViewState wStale 0 = wStale ∧ deliverPanelClose wStale 0 = wStale :=
  stale_event_after_teardown wStale
    (Reachable.socketClose w1c 0 (Reachable.createOrShow World.init ctx0 urlA Reachable.init))
    0 instStale (by rfl) (by rfl)

/-- C10 counterexample: the at-most-one-live-instance invariant is not
preserved by all five event handlers — a stale socket-close delivered on the
handle of the already-disposed controller 0 clears the slot while controller
1 is live, after which `createOrShow` constructs controller 2: the reachable
state `wBad` holds two controllers with undisposed panels. -/
theorem stale_socket_close_breaks_singleton :
    Reachable wBad ∧
    (wBad.insts 1).map (fun inst => inst.panel.disposed) = some false ∧
    (wBad.insts 2).map (fun inst => inst.panel.disposed) = some false ∧
    ¬ atMostOneLive wBad := by
  refine ⟨?_, rfl, rfl, ?_⟩
  · exact Reachable.createOrShow _ ctx0 urlC
      (Reachable.socketClose _ 0
        (Reachable.createOrShow _ ctx0 urlB
          (Reachable.socketClose _ 0
            (Reachable.createOrShow _ ctx0 urlA Reachable.init))))
  · intro hmono
    have h12 : (1 : Nat) = 2 := hmono 1 2 instB instC rfl rfl rfl rfl
    exact absurd h12 (by decide)

/-- C10 (amended): the static slot structurally holds zero or one controller,
and along traces where the slot-clearing disposal paths (explicit `dispose`,
socket close) are only triggered for the controller currently in the slot, at
most one controller with an undisposed panel exists process-wide; the
invariant survives `createOrShow`, panel close, visibility changes, webview
messages, and error reports, but not stale socket-close deliveries. -/
theorem proper_traces_at_most_one_live (w : World) (h : ReachableProper w) :
    atMostOneLive w := by
  have hl := liveOnlySlot_reachableProper w h
  intro i j a b hi hj ha hb
  have h1 := hl i a hi ha
  have h2 := hl j b hj hb
  rw [h1] at h2
  exact Option.some.inj h2

theorem proper_traces_at_most_one_live_witness : atMostOneLive w1c :=
  proper_traces_at_most_one_live w1c
    (ReachableProper.createOrShow World.init ctx0 urlA ReachableProper.init)
